import Mathlib

/-!
Shallow embedding of the Windows code-signature verification engine of
`codesign-verify-rs` (`src/lib.rs`, `src/windows/mod.rs`,
`src/windows/context.rs`).

The native Windows API (WinVerifyTrust, CryptCAT*, CreateFileW, OpenProcess,
and the certificate helper functions) is an external collaborator.  Its
behaviour at each call site of one verification attempt is captured by an
oracle record; the embedded functions are deterministic functions of that
oracle, and they additionally return the list of resource events
(acquisitions and releases of native handles) the Rust code would issue, so
that the resource-lifetime invariants can be stated as properties of that
trace.
-/

namespace CodesignVerify

/-! ### Fixed Windows SDK constants

These numeric values come from the Windows SDK headers re-exported by the
crate's `wintrust_sys` bindings (an external collaborator per the spec).
Error codes are kept as their `u32` bit patterns, as the Rust code compares
them after an `as u32` cast. -/

def TRUST_E_NOSIGNATURE : Nat := 0x800B0100

def TRUST_E_NO_SIGNER_CERT : Nat := 0x80096002

def ERROR_INVALID_PARAMETER : Nat := 87

def WTD_UI_NONE : Nat := 2

def WTD_REVOKE_NONE : Nat := 0

def WTD_STATEACTION_VERIFY : Nat := 1

def WTD_STATEACTION_CLOSE : Nat := 2

def WTD_UICONTEXT_EXECUTE : Nat := 0

def WTD_CHOICE_FILE : Nat := 1

def WTD_CHOICE_CATALOG : Nat := 2

def WTD_USE_IE4_TRUST_FLAG : Nat := 0x1

def WTD_NO_IE4_CHAIN_FLAG : Nat := 0x2

def WTD_REVOCATION_CHECK_NONE : Nat := 0x10

def WTD_REVOCATION_CHECK_END_CERT : Nat := 0x20

def WTD_REVOCATION_CHECK_CHAIN : Nat := 0x40

def WTD_USE_DEFAULT_OSVER_CHECK : Nat := 0x400

def WTD_CACHE_ONLY_URL_RETRIEVAL : Nat := 0x1000

def WTD_DISABLE_MD2_MD4 : Nat := 0x2000

/-- `HANDLE` is `isize` in the bindings; `INVALID_HANDLE_VALUE` is `-1`. -/
def INVALID_HANDLE_VALUE : Int := -1

/-- Reinterpret a `u32` bit pattern as an `i32`, as Rust's `as i32` cast does. -/
def toInt32 (n : Nat) : Int :=
  if n % 2 ^ 32 < 2 ^ 31 then (n % 2 ^ 32 : Nat) else (n % 2 ^ 32 : Nat) - 2 ^ 32

/-! ### The public error enum (`src/lib.rs`, `enum Error`)

`IoError` carries a `std::io::Error` in the source; it is never constructed
by the verification paths embedded here, so its payload is irrelevant and
omitted. -/

inductive Error where
  | Unsigned
  | OsError (code : Int)
  | InvalidPath
  | LeafCertNotFound
  | IoError
  deriving DecidableEq, Repr

/-! ### Native resource events

One constructor per release primitive the Rust code can issue, plus
acquisition markers, so that "released exactly once, in this order" is a
statement about the trace of one attempt. -/

inductive Event where
  | acquireFile (h : Int)
  | acquireCatAdmin (h : Int)
  | acquireCatInfo (h : Int)
  | closeHandle (h : Int)
  | releaseCatalogContext (admin info : Int)
  | releaseContext (admin : Int)
  | wvtClose (stateData : Int)
  deriving DecidableEq, Repr

/-- Is the event one of the three release primitives of `CleanupContext`? -/
def Event.isCleanupRelease : Event → Bool
  | .closeHandle _ => true
  | .releaseCatalogContext _ _ => true
  | .releaseContext _ => true
  | _ => false

/-! ### Hex encoding helpers

The Rust code formats bytes with `format!("{:02x}", b)`: two lowercase hex
digits. -/

def hexDigit (n : Nat) : Char :=
  if n < 10 then Char.ofNat (48 + n) else Char.ofNat (87 + n)

def hexByte (n : Nat) : String :=
  String.mk [hexDigit (n / 16 % 16), hexDigit (n % 16)]

/-- Hex encoding of a byte string in stored order:
`bs.iter().fold(String::new(), |s, b| s + &format!("{b:02x}"))`. -/
def bytesToHex (bs : List Nat) : String :=
  bs.foldl (fun s b => s ++ hexByte b) ""

/-! ### Certificate data and `Context` (`src/windows/context.rs`)

A leaf certificate as seen through the `CERT_CONTEXT`: its full encoded
(DER) byte string (`pbCertEncoded`/`cbCertEncoded`) and its serial-number
blob (`pCertInfo.SerialNumber`), both owned by trust-engine memory that the
state handle keeps alive. -/

structure CertContextData where
  encoded : List Nat
  serialNumber : List Nat
  deriving DecidableEq, Repr

/-- `Context { data: HANDLE, leaf_cert_ptr: PCCERT_CONTEXT }`. -/
structure Context where
  data : Int
  cert : CertContextData
  deriving DecidableEq, Repr

/-- `close_data(handle)`: one `WinVerifyTrust` call with
`dwStateAction = WTD_STATEACTION_CLOSE` on the given state handle. -/
def close_data (handle : Int) : List Event :=
  [.wvtClose handle]

/-- `impl Drop for Context`: dropping a `Context` calls `close_data` on its
state handle. -/
def Context.dropEvents (c : Context) : List Event :=
  close_data c.data

/-- Results of the three certificate-extraction helper calls made by
`Context::new` on a state handle: `WTHelperProvDataFromStateData`,
`WTHelperGetProvSignerFromChain`, `WTHelperGetProvCertFromChain`.
`cert` is `none` when the last helper returns null. -/
structure StateDataOracle where
  provData : Bool
  signer : Bool
  cert : Option CertContextData
  deriving DecidableEq, Repr

/-- `Context::new(state_data)`.  The partially built `ret` already owns the
state handle, so every early `return Err(TRUST_E_NO_SIGNER_CERT)` drops it,
issuing `close_data`; on success the handle ownership stays with the
returned `Context`. -/
def Context.new (o : StateDataOracle) (state_data : Int) :
    Except Nat Context × List Event :=
  if o.provData = false then
    (.error TRUST_E_NO_SIGNER_CERT, close_data state_data)
  else if o.signer = false then
    (.error TRUST_E_NO_SIGNER_CERT, close_data state_data)
  else
    match o.cert with
    | none => (.error TRUST_E_NO_SIGNER_CERT, close_data state_data)
    | some cert => (.ok ⟨state_data, cert⟩, [])

/-- `Context::serial`: fold the serial blob bytes into
`format!("{s:02x}{v}")`, i.e. each byte's hex is *prepended* to the
accumulator. -/
def Context.serial (c : Context) : String :=
  c.cert.serialNumber.foldl (fun v s => hexByte s ++ v) ""

/-- `Context::sha1_thumbprint`: hex of the digest of the full encoded
certificate bytes.  The SHA-1 function itself (the `sha1` crate) is an
external collaborator, passed in as `digest`. -/
def Context.sha1_thumbprint (digest : List Nat → List Nat) (c : Context) : String :=
  (digest c.cert.encoded).foldl (fun s byte => s ++ hexByte byte) ""

/-- `Context::sha256_thumbprint`: hex of the digest of the full encoded
certificate bytes.  The SHA-256 function itself (the `sha2` crate) is an
external collaborator, passed in as `digest`. -/
def Context.sha256_thumbprint (digest : List Nat → List Nat) (c : Context) : String :=
  (digest c.cert.encoded).foldl (fun s byte => s ++ hexByte byte) ""

/-! ### The cleanup guard (`src/windows/mod.rs`, `struct CleanupContext`) -/

structure CleanupContext where
  h_file : Int
  h_cat_admin : Int
  h_cat_info : Int
  deriving DecidableEq, Repr

/-- `CleanupContext::new(h_file)`: catalog handles start at the `0`
sentinel. -/
def CleanupContext.new (h_file : Int) : CleanupContext :=
  ⟨h_file, 0, 0⟩

/-- `impl Drop for CleanupContext`: the releases the guard issues when it
goes out of scope, in the source's order — file handle first, then the
catalog-info context, then the catalog-admin context — each skipped while
its handle is still `0`. -/
def CleanupContext.dropEvents (c : CleanupContext) : List Event :=
  (if c.h_file ≠ 0 then [Event.closeHandle c.h_file] else []) ++
  (if c.h_cat_info ≠ 0 then
    [Event.releaseCatalogContext c.h_cat_admin c.h_cat_info] else []) ++
  (if c.h_cat_admin ≠ 0 then [Event.releaseContext c.h_cat_admin] else [])

/-! ### `verify_internal` -/

/-- The fields of the `WINTRUST_DATA` request that `verify_internal` fills
in (the rest stay zeroed). -/
structure WintrustData where
  dwUIChoice : Nat
  fdwRevocationChecks : Nat
  dwStateAction : Nat
  dwUIContext : Nat
  dwUnionChoice : Nat
  dwProvFlags : Nat
  deriving DecidableEq, Repr

/-- The request `verify_internal(file_info, catalog_info)` builds: a file
request when `file_info` is `Some`, otherwise a catalog request when
`catalog_info` is `Some`, otherwise none (`ERROR_INVALID_PARAMETER`).
The two request kinds carry different provider flags. -/
def buildWintrustData (file_info catalog_info : Bool) : Option WintrustData :=
  if file_info then
    some { dwUIChoice := WTD_UI_NONE
           fdwRevocationChecks := WTD_REVOKE_NONE
           dwStateAction := WTD_STATEACTION_VERIFY
           dwUIContext := WTD_UICONTEXT_EXECUTE
           dwUnionChoice := WTD_CHOICE_FILE
           dwProvFlags :=
             WTD_DISABLE_MD2_MD4 ||| WTD_REVOCATION_CHECK_END_CERT |||
               WTD_NO_IE4_CHAIN_FLAG }
  else if catalog_info then
    some { dwUIChoice := WTD_UI_NONE
           fdwRevocationChecks := WTD_REVOKE_NONE
           dwStateAction := WTD_STATEACTION_VERIFY
           dwUIContext := WTD_UICONTEXT_EXECUTE
           dwUnionChoice := WTD_CHOICE_CATALOG
           dwProvFlags :=
             WTD_CACHE_ONLY_URL_RETRIEVAL ||| WTD_USE_DEFAULT_OSVER_CHECK }
  else
    none

/-- One `WinVerifyTrust` verification call's outcome: the returned status
(`0` means trusted), the `hWVTStateData` the call left in the request, the
certificate-extraction results, and the thread's `GetLastError` value read
after a failure. -/
structure TrustOracle where
  wvtResult : Int
  stateData : Int
  state : StateDataOracle
  lastError : Nat
  deriving DecidableEq, Repr

/-- `Verifier::verify_internal(file_info, catalog_info)`:
build the request; on a `0` return of `WinVerifyTrust` hand the state data
to `Context::new`; on failure still run `Context::new` on the state data
(dropping its result immediately) so the close gets called, then return
`GetLastError()`. -/
def verify_internal (file_info catalog_info : Bool) (o : TrustOracle) :
    Except Nat Context × List Event :=
  match buildWintrustData file_info catalog_info with
  | none => (.error ERROR_INVALID_PARAMETER, [])
  | some _ =>
    if o.wvtResult = 0 then
      Context.new o.state o.stateData
    else
      match Context.new o.state o.stateData with
      | (.ok c, evs) => (.error o.lastError, evs ++ c.dropEvents)
      | (.error _, evs) => (.error o.lastError, evs)

/-! ### `verify_catalog_signed` -/

/-- Outcomes of the native calls made during one catalog-fallback attempt:
`CreateFileW`, `CryptCATAdminAcquireContext2`,
`CryptCATAdminCalcHashFromFileHandle2`, `CryptCATAdminEnumCatalogFromHash`,
`CryptCATCatalogInfoFromContext`, and the inner catalog `WinVerifyTrust`
request.  Each `*Error` field is the `GetLastError` value read when the
corresponding call fails. -/
structure CatalogOracle where
  hFile : Int
  createFileError : Nat
  acquireOk : Bool
  acquireError : Nat
  hCatAdmin : Int
  calcHashOk : Bool
  calcHashError : Nat
  hashBytes : List Nat
  hCatInfo : Int
  catalogInfoOk : Bool
  catalogInfoError : Nat
  innerVerify : TrustOracle
  deriving DecidableEq, Repr

/-- `Verifier::verify_catalog_signed`.  The `CleanupContext` guard `ctx` is
created after the file opens, grows `h_cat_admin` and `h_cat_info` as those
acquisitions succeed, and its drop runs on every exit after that point — on
the error returns, on the `Unsigned` return, and after the inner
verification, success or failure. -/
def verify_catalog_signed (o : CatalogOracle) : Except Error Context × List Event :=
  if o.hFile = INVALID_HANDLE_VALUE then
    (.error (.OsError (toInt32 o.createFileError)), [])
  else
    let ctx := CleanupContext.new o.hFile
    let acq := [Event.acquireFile o.hFile]
    if o.acquireOk = false then
      (.error (.OsError (toInt32 o.acquireError)), acq ++ ctx.dropEvents)
    else
      let ctx := { ctx with h_cat_admin := o.hCatAdmin }
      let acq := acq ++ [Event.acquireCatAdmin o.hCatAdmin]
      if o.calcHashOk = false then
        (.error (.OsError (toInt32 o.calcHashError)), acq ++ ctx.dropEvents)
      else if o.hCatInfo = 0 then
        (.error .Unsigned, acq ++ ctx.dropEvents)
      else
        let ctx := { ctx with h_cat_info := o.hCatInfo }
        let acq := acq ++ [Event.acquireCatInfo o.hCatInfo]
        if o.catalogInfoOk = false then
          (.error (.OsError (toInt32 o.catalogInfoError)), acq ++ ctx.dropEvents)
        else
          match verify_internal false true o.innerVerify with
          | (.ok c, evs) => (.ok c, acq ++ evs ++ ctx.dropEvents)
          | (.error err, evs) =>
            (.error (.OsError (toInt32 err)), acq ++ evs ++ ctx.dropEvents)

/-! ### `Verifier` and `verify` -/

/-- The oracle for one whole `verify()` call: the direct file-based trust
call and, should the fallback run, the catalog attempt. -/
structure VerifyOracle where
  direct : TrustOracle
  catalog : CatalogOracle
  deriving DecidableEq, Repr

/-- `Verifier(Vec<u16>)`: the UTF-16 path, null-terminated. -/
def Verifier : Type := List Nat

/-- `Verifier::for_file`: encode the path as wide characters and append the
null terminator; this construction is total. -/
def Verifier.for_file (pathUnits : List Nat) : Verifier :=
  pathUnits ++ [0]

/-- `Verifier::verify`: try the direct file request first; fall back to the
catalog path exactly when the direct attempt failed with
`TRUST_E_NOSIGNATURE`; wrap any other failure code as `OsError` without
falling back. -/
def Verifier.verify (o : VerifyOracle) : Except Error Context × List Event :=
  match verify_internal true false o.direct with
  | (.ok context, evs) => (.ok context, evs)
  | (.error err, evs) =>
    if err = TRUST_E_NOSIGNATURE then
      match verify_catalog_signed o.catalog with
      | (r, evs2) => (r, evs ++ evs2)
    else
      (.error (.OsError (toInt32 err)), evs)

/-! ### Pid-based construction -/

/-- Outcomes of the native calls of `get_process_path`: `OpenProcess`
(`0` handle means failure) and `QueryFullProcessImageNameW` (`0` return
means failure), plus the UTF-16 buffer contents written on success.  Each
`*Error` is the `GetLastError` value after the corresponding failure. -/
structure ProcessOracle where
  openHandle : Int
  openError : Nat
  queryOk : Bool
  queryError : Nat
  pathUnits : List Nat
  deriving DecidableEq, Repr

/-- `get_process_path(proc_id)`: open the process, query its image path,
and decode it with `String::from_utf16_lossy` — a total conversion, so the
success path never fails.  The path is returned as its code units. -/
def get_process_path (o : ProcessOracle) : Except Error (List Nat) :=
  if o.openHandle = 0 then
    .error (.OsError (toInt32 o.openError))
  else if o.queryOk = false then
    .error (.OsError (toInt32 o.queryError))
  else
    .ok o.pathUnits

/-- `Verifier::for_pid`: resolve the process path, then `for_file`. -/
def Verifier.for_pid (o : ProcessOracle) : Except Error Verifier :=
  match get_process_path o with
  | .error e => .error e
  | .ok path => .ok (Verifier.for_file path)

/-! ### Derived traces and sample oracles -/

/-- All resource events of one `verify_internal` call, including those of
eventually dropping a successfully returned `Context`. -/
def verify_internal_full_trace (file_info catalog_info : Bool) (o : TrustOracle) :
    List Event :=
  match verify_internal file_info catalog_info o with
  | (.ok c, evs) => evs ++ c.dropEvents
  | (.error _, evs) => evs

/-- The lowercase hexadecimal alphabet. -/
def lowerHexAlphabet : List Char := "0123456789abcdef".data

/-- A sample leaf certificate. -/
def certSample : CertContextData := ⟨[0x30, 0x82], [0x01]⟩

/-- Extraction succeeds and yields the sample certificate. -/
def stateOkOracle : StateDataOracle := ⟨true, true, some certSample⟩

/-- `WTHelperProvDataFromStateData` already returns null. -/
def stateFailOracle : StateDataOracle := ⟨false, false, none⟩

/-- A trust call that succeeds with extractable signer data. -/
def trustSuccessOracle : TrustOracle := ⟨0, 11, stateOkOracle, 0⟩

/-- A trust call that fails with `TRUST_E_NOSIGNATURE`. -/
def trustNoSigOracle : TrustOracle := ⟨1, 0, stateFailOracle, TRUST_E_NOSIGNATURE⟩

/-- A trust call that fails with `ERROR_ACCESS_DENIED` (5). -/
def trustHardFailOracle : TrustOracle := ⟨1, 0, stateFailOracle, 5⟩

/-- A trust call that reports success but whose state data yields no
signer certificate. -/
def trustSuccessNoCertOracle : TrustOracle := ⟨0, 11, stateFailOracle, 0⟩

/-- A catalog-fallback attempt in which every native call succeeds: file
handle 5, catalog-admin handle 7, catalog-info handle 9. -/
def catalogFoundOracle : CatalogOracle :=
  ⟨5, 0, true, 0, 7, true, 0, [0xAA], 9, true, 0, trustSuccessOracle⟩

/-- As `catalogFoundOracle` but no catalog contains the hash. -/
def catalogNoneOracle : CatalogOracle := { catalogFoundOracle with hCatInfo := 0 }

/-- As `catalogFoundOracle` but the catalog-based trust call itself fails
with a second-level `TRUST_E_NOSIGNATURE`. -/
def catalogInnerNoSigOracle : CatalogOracle :=
  { catalogFoundOracle with innerVerify := trustNoSigOracle }

/-- A direct trust call that succeeds, yet without an extractable signer. -/
def verifyOracleNoCert : VerifyOracle := ⟨trustSuccessNoCertOracle, catalogFoundOracle⟩

/-- A direct `TRUST_E_NOSIGNATURE` failure followed by an empty catalog
lookup. -/
def verifyOracleNoSig : VerifyOracle := ⟨trustNoSigOracle, catalogNoneOracle⟩

/-- A direct failure with a status other than `TRUST_E_NOSIGNATURE`. -/
def verifyOracleHardFail : VerifyOracle := ⟨trustHardFailOracle, catalogFoundOracle⟩

/-- A `get_process_path` attempt in which `OpenProcess` fails. -/
def processOpenFailOracle : ProcessOracle := ⟨0, 5, true, 0, []⟩

deriving instance DecidableEq for Except

/-! ## Helper lemmas on strings and hex encoding -/

theorem string_data_append (s t : String) : (s ++ t).data = s.data ++ t.data := rfl

theorem string_empty_append (s : String) : "" ++ s = s := by
  cases s with
  | mk d => show String.mk ([] ++ d) = String.mk d; rw [List.nil_append]

theorem string_append_empty (s : String) : s ++ "" = s := by
  cases s with
  | mk d => show String.mk (d ++ []) = String.mk d; rw [List.append_nil]

theorem string_append_assoc (s t u : String) : s ++ t ++ u = s ++ (t ++ u) := by
  cases s; cases t; cases u
  show String.mk _ = String.mk _
  rw [List.append_assoc]

/-- Folding the hex-append step from any initial accumulator just appends
the hex encoding of the byte list. -/
theorem foldl_hexByte_eq (bs : List Nat) :
    ∀ init : String, bs.foldl (fun s b => s ++ hexByte b) init = init ++ bytesToHex bs := by
  induction bs with
  | nil => intro init; simp [bytesToHex, string_append_empty]
  | cons b bs ih =>
    intro init
    show bs.foldl _ (init ++ hexByte b) = init ++ bytesToHex (b :: bs)
    rw [ih (init ++ hexByte b)]
    show _ = init ++ bs.foldl (fun s b => s ++ hexByte b) ("" ++ hexByte b)
    rw [ih ("" ++ hexByte b), string_empty_append, string_append_assoc]

theorem bytesToHex_cons (b : Nat) (bs : List Nat) :
    bytesToHex (b :: bs) = hexByte b ++ bytesToHex bs := by
  show (b :: bs).foldl (fun s b => s ++ hexByte b) "" = _
  rw [List.foldl_cons, foldl_hexByte_eq, string_empty_append]

theorem bytesToHex_append (xs ys : List Nat) :
    bytesToHex (xs ++ ys) = bytesToHex xs ++ bytesToHex ys := by
  show (xs ++ ys).foldl (fun s b => s ++ hexByte b) "" = _
  rw [List.foldl_append, foldl_hexByte_eq]
  rfl

theorem bytesToHex_nil : bytesToHex [] = "" := rfl

/-- The serial fold prepends each byte's hex, so it computes the hex of the
reversed byte list. -/
theorem serial_foldl_eq (bs : List Nat) :
    ∀ v : String, bs.foldl (fun v s => hexByte s ++ v) v = bytesToHex bs.reverse ++ v := by
  induction bs with
  | nil => intro v; exact (string_empty_append v).symm
  | cons b bs ih =>
    intro v
    rw [List.foldl_cons, ih (hexByte b ++ v), List.reverse_cons, bytesToHex_append,
      string_append_assoc, bytesToHex_cons, bytesToHex_nil, string_append_empty]

theorem hexDigit_mem_lowerHex (n : Nat) (h : n < 16) : hexDigit n ∈ lowerHexAlphabet := by
  interval_cases n <;> decide

theorem bytesToHex_chars_lowerHex (bs : List Nat) :
    ∀ ch ∈ (bytesToHex bs).data, ch ∈ lowerHexAlphabet := by
  induction bs with
  | nil => intro ch h; exact absurd h (List.not_mem_nil ch)
  | cons b bs ih =>
    intro ch h
    rw [bytesToHex_cons, string_data_append] at h
    rcases List.mem_append.1 h with h1 | h2
    · have hd : (hexByte b).data = [hexDigit (b / 16 % 16), hexDigit (b % 16)] := rfl
      rw [hd] at h1
      rcases h1 with _ | ⟨_, h1⟩
      · exact hexDigit_mem_lowerHex _ (Nat.mod_lt _ (by decide))
      · rcases h1 with _ | ⟨_, h1⟩
        · exact hexDigit_mem_lowerHex _ (Nat.mod_lt _ (by decide))
        · exact absurd h1 (List.not_mem_nil ch)
    · exact ih ch h2

/-! ## Claim theorems -/

/-- C5: the serial number string is the hex encoding of the serial blob
with the byte order reversed relative to the stored order; on the stored
bytes 01 02 03 it yields the string of 03 then 02 then 01, not the
stored-order string. -/
theorem serial_is_reversed_hex :
    (∀ c : Context, c.serial = bytesToHex c.cert.serialNumber.reverse) ∧
    (Context.mk 0 ⟨[], [0x01, 0x02, 0x03]⟩).serial = "030201" ∧
    (Context.mk 0 ⟨[], [0x01, 0x02, 0x03]⟩).serial ≠ "010203" := by
  refine ⟨fun c => ?_, by decide, by decide⟩
  show c.cert.serialNumber.foldl _ "" = _
  rw [serial_foldl_eq, string_append_empty]

/-- C7: both thumbprints are the lowercase hex string of the digest
computed over the certificate's full encoded (DER) byte string — the digest
input is exactly the encoded bytes, and every output character is a
lowercase hex digit. -/
theorem thumbprints_hash_full_encoded :
    (∀ (digest : List Nat → List Nat) (c : Context),
      Context.sha1_thumbprint digest c = bytesToHex (digest c.cert.encoded)) ∧
    (∀ (digest : List Nat → List Nat) (c : Context),
      Context.sha256_thumbprint digest c = bytesToHex (digest c.cert.encoded)) ∧
    (∀ (digest : List Nat → List Nat) (c : Context),
      ∀ ch ∈ (Context.sha1_thumbprint digest c).data, ch ∈ lowerHexAlphabet) ∧
    (∀ (digest : List Nat → List Nat) (c : Context),
      ∀ ch ∈ (Context.sha256_thumbprint digest c).data, ch ∈ lowerHexAlphabet) :=
  ⟨fun _ _ => rfl, fun _ _ => rfl,
   fun digest c => bytesToHex_chars_lowerHex (digest c.cert.encoded),
   fun digest c => bytesToHex_chars_lowerHex (digest c.cert.encoded)⟩

/-- C9: the thumbprint strings depend only on the certificate's encoded
bytes held by the Context (and on the digest function), so any number of
calls on the same Context yield byte-identical strings. -/
theorem thumbprints_determined_by_encoded :
    ∀ (digest : List Nat → List Nat) (c₁ c₂ : Context),
      c₁.cert.encoded = c₂.cert.encoded →
      Context.sha1_thumbprint digest c₁ = Context.sha1_thumbprint digest c₂ ∧
      Context.sha256_thumbprint digest c₁ = Context.sha256_thumbprint digest c₂ := by
  intro digest c₁ c₂ h
  constructor
  · show (digest c₁.cert.encoded).foldl _ _ = (digest c₂.cert.encoded).foldl _ _
    rw [h]
  · show (digest c₁.cert.encoded).foldl _ _ = (digest c₂.cert.encoded).foldl _ _
    rw [h]

/-- Witness for C9: two Contexts sharing encoded bytes but differing in
state handle and serial blob have identical thumbprints. -/
theorem thumbprints_determined_by_encoded_witness :
    (Context.mk 0 ⟨[1, 2], [9]⟩).cert.encoded = (Context.mk 5 ⟨[1, 2], [7]⟩).cert.encoded ∧
    (Context.sha1_thumbprint (fun bs => bs) (Context.mk 0 ⟨[1, 2], [9]⟩) =
        Context.sha1_thumbprint (fun bs => bs) (Context.mk 5 ⟨[1, 2], [7]⟩) ∧
      Context.sha256_thumbprint (fun bs => bs) (Context.mk 0 ⟨[1, 2], [9]⟩) =
        Context.sha256_thumbprint (fun bs => bs) (Context.mk 5 ⟨[1, 2], [7]⟩)) :=
  ⟨rfl, thumbprints_determined_by_encoded (fun bs => bs)
    (Context.mk 0 ⟨[1, 2], [9]⟩) (Context.mk 5 ⟨[1, 2], [7]⟩) rfl⟩

/-- C2: verify() always attempts the direct file-based trust call first; it
attempts the catalog fallback if and only if that call failed with the
no-signature status, and wraps every other failure code as OsError without
attempting the fallback. -/
theorem verify_fallback_iff_nosignature (o : VerifyOracle) :
    (∀ c evs, verify_internal true false o.direct = (.ok c, evs) →
      Verifier.verify o = (.ok c, evs)) ∧
    (∀ e evs, verify_internal true false o.direct = (.error e, evs) →
      e = TRUST_E_NOSIGNATURE →
        Verifier.verify o =
          ((verify_catalog_signed o.catalog).1,
            evs ++ (verify_catalog_signed o.catalog).2)) ∧
    (∀ e evs, verify_internal true false o.direct = (.error e, evs) →
      e ≠ TRUST_E_NOSIGNATURE →
        Verifier.verify o = (.error (.OsError (toInt32 e)), evs)) := by
  refine ⟨?_, ?_, ?_⟩
  · intro c evs h
    unfold Verifier.verify
    rw [h]
  · intro e evs h he
    unfold Verifier.verify
    rw [h]
    simp [he]
  · intro e evs h he
    unfold Verifier.verify
    rw [h]
    simp [he]

/-- Witness for C2: a hard direct failure (code 5) is returned as OsError
with no catalog events, and a direct no-signature failure continues into
the catalog attempt. -/
theorem verify_fallback_iff_nosignature_witness :
    Verifier.verify verifyOracleHardFail = (.error (.OsError (toInt32 5)), [.wvtClose 0]) ∧
    Verifier.verify verifyOracleNoSig =
      ((verify_catalog_signed verifyOracleNoSig.catalog).1,
        [.wvtClose 0] ++ (verify_catalog_signed verifyOracleNoSig.catalog).2) :=
  ⟨(verify_fallback_iff_nosignature verifyOracleHardFail).2.2 5 [.wvtClose 0]
      (by decide) (by decide),
   (verify_fallback_iff_nosignature verifyOracleNoSig).2.1 TRUST_E_NOSIGNATURE
      [.wvtClose 0] (by decide) rfl⟩

/-- C3: in the catalog fallback, an empty catalog lookup yields Unsigned,
while a found catalog whose second trust-verification call fails — with any
code, a second-level no-signature status included — yields OsError with
that code and never Unsigned. -/
theorem catalog_none_unsigned_inner_failure_oserror (o : CatalogOracle) :
    (o.hFile ≠ INVALID_HANDLE_VALUE → o.acquireOk = true → o.calcHashOk = true →
      o.hCatInfo = 0 → (verify_catalog_signed o).1 = .error .Unsigned) ∧
    (o.hFile ≠ INVALID_HANDLE_VALUE → o.acquireOk = true → o.calcHashOk = true →
      o.hCatInfo ≠ 0 → o.catalogInfoOk = true →
      ∀ e evs, verify_internal false true o.innerVerify = (.error e, evs) →
        (verify_catalog_signed o).1 = .error (.OsError (toInt32 e)) ∧
        (verify_catalog_signed o).1 ≠ .error .Unsigned) := by
  constructor
  · intro h1 h2 h3 h4
    simp [verify_catalog_signed, h1, h2, h3, h4]
  · intro h1 h2 h3 h4 h5 e evs h6
    simp [verify_catalog_signed, h1, h2, h3, h4, h5, h6]

/-- Witness for C3: with file handle 5 and admin handle 7 acquired, an
empty lookup gives Unsigned, and a found catalog with a second-level
no-signature failure gives the OsError wrapping of that code. -/
theorem catalog_none_unsigned_inner_failure_oserror_witness :
    (verify_catalog_signed catalogNoneOracle).1 = .error .Unsigned ∧
    ((verify_catalog_signed catalogInnerNoSigOracle).1 =
        .error (.OsError (toInt32 TRUST_E_NOSIGNATURE)) ∧
      (verify_catalog_signed catalogInnerNoSigOracle).1 ≠ .error .Unsigned) :=
  ⟨(catalog_none_unsigned_inner_failure_oserror catalogNoneOracle).1
      (by decide) rfl rfl rfl,
   (catalog_none_unsigned_inner_failure_oserror catalogInnerNoSigOracle).2
      (by decide) rfl rfl (by decide) rfl TRUST_E_NOSIGNATURE [.wvtClose 0] (by decide)⟩

/-- C4 counterexample: when the trust engine reports success but the state
data yields no signer certificate, verify() returns the OsError wrapping of
the TRUST_E_NO_SIGNER_CERT code — not the LeafCertNotFound variant the
claim names. -/
theorem no_cert_counterexample :
    (Verifier.verify verifyOracleNoCert).1 ≠ .error Error.LeafCertNotFound ∧
    (Verifier.verify verifyOracleNoCert).1 =
      .error (.OsError (toInt32 TRUST_E_NO_SIGNER_CERT)) := by
  constructor
  · decide
  · decide

/-- C4 (amended): if the trust engine reports success but no signer
certificate can be extracted from the state data (provider data, signer or
certificate lookup yields nothing), verify() fails with
OsError(TRUST_E_NO_SIGNER_CERT), since the extraction failure surfaces as
that native code rather than as the LeafCertNotFound variant. -/
theorem trusted_without_cert_gives_no_signer_oserror (o : VerifyOracle)
    (h0 : o.direct.wvtResult = 0)
    (h : o.direct.state.provData = false ∨ o.direct.state.signer = false ∨
      o.direct.state.cert = none) :
    (Verifier.verify o).1 = .error (.OsError (toInt32 TRUST_E_NO_SIGNER_CERT)) := by
  have hnew : Context.new o.direct.state o.direct.stateData =
      (.error TRUST_E_NO_SIGNER_CERT, close_data o.direct.stateData) := by
    rcases h with h | h | h
    · simp [Context.new, h]
    · by_cases hp : o.direct.state.provData = false
      · simp [Context.new, hp]
      · simp [Context.new, hp, h]
    · by_cases hp : o.direct.state.provData = false
      · simp [Context.new, hp]
      · by_cases hs : o.direct.state.signer = false
        · simp [Context.new, hp, hs]
        · simp [Context.new, hp, hs, h]
  have hvi : verify_internal true false o.direct =
      (.error TRUST_E_NO_SIGNER_CERT, close_data o.direct.stateData) := by
    simp [verify_internal, buildWintrustData, h0, hnew]
  unfold Verifier.verify
  rw [hvi]
  simp [TRUST_E_NO_SIGNER_CERT, TRUST_E_NOSIGNATURE]

/-- Witness for C4 (amended): the oracle with a successful trust call and a
null provider-data lookup. -/
theorem trusted_without_cert_gives_no_signer_oserror_witness :
    (Verifier.verify verifyOracleNoCert).1 =
      .error (.OsError (toInt32 TRUST_E_NO_SIGNER_CERT)) :=
  trusted_without_cert_gives_no_signer_oserror verifyOracleNoCert rfl (.inl rfl)

/-- C8: on every path of one internal verification call, the state handle
the trust call produced is closed via the close state-action exactly once —
either inside Context::new when extraction fails, by the immediate drop on
the trust-failure path, or by the eventual drop of the returned Context. -/
theorem state_handle_closed_exactly_once (fi ci : Bool) (o : TrustOracle)
    (h : fi = true ∨ ci = true) :
    (verify_internal_full_trace fi ci o).count (Event.wvtClose o.stateData) = 1 := by
  have hb : ∃ d, buildWintrustData fi ci = some d := by
    cases fi
    · cases ci
      · rcases h with h | h <;> exact absurd h (by simp)
      · exact ⟨_, rfl⟩
    · exact ⟨_, rfl⟩
  obtain ⟨d, hd⟩ := hb
  rcases o with ⟨wvt, sd, ⟨pd, sg, ct⟩, le⟩
  unfold verify_internal_full_trace verify_internal
  rw [hd]
  by_cases hw : wvt = 0 <;> cases pd <;> cases sg <;> cases ct <;>
    simp [hw, Context.new, close_data, Context.dropEvents, List.count_cons]

/-- Witness for C8: on the successful file-based call with state handle 11,
the attempt's events plus the returned Context's drop close handle 11
exactly once. -/
theorem state_handle_closed_exactly_once_witness :
    (verify_internal_full_trace true false trustSuccessOracle).count
      (Event.wvtClose trustSuccessOracle.stateData) = 1 :=
  state_handle_closed_exactly_once true false trustSuccessOracle (.inl rfl)

/-- C10: every direct (file-based) request carries the end-cert
revocation-check provider flag and neither catalog-only flag, while every
catalog request carries the cache-only URL-retrieval and default OS-version
check flags but not the end-cert revocation flag; the two provider-flag
words always differ. -/
theorem provider_flags_asymmetry (b : Bool) (fileData catData : WintrustData)
    (hf : buildWintrustData true b = some fileData)
    (hc : buildWintrustData false true = some catData) :
    fileData.dwProvFlags &&& WTD_REVOCATION_CHECK_END_CERT ≠ 0 ∧
    fileData.dwProvFlags &&& WTD_CACHE_ONLY_URL_RETRIEVAL = 0 ∧
    fileData.dwProvFlags &&& WTD_USE_DEFAULT_OSVER_CHECK = 0 ∧
    catData.dwProvFlags &&& WTD_REVOCATION_CHECK_END_CERT = 0 ∧
    catData.dwProvFlags &&& WTD_CACHE_ONLY_URL_RETRIEVAL ≠ 0 ∧
    catData.dwProvFlags &&& WTD_USE_DEFAULT_OSVER_CHECK ≠ 0 ∧
    fileData.dwProvFlags ≠ catData.dwProvFlags := by
  have h1 := Option.some.inj hf
  have h2 := Option.some.inj hc
  subst h1
  subst h2
  decide

/-- Witness for C10: the two concretely built requests. -/
theorem provider_flags_asymmetry_witness :
    WTD_DISABLE_MD2_MD4 ||| WTD_REVOCATION_CHECK_END_CERT ||| WTD_NO_IE4_CHAIN_FLAG ≠
      WTD_CACHE_ONLY_URL_RETRIEVAL ||| WTD_USE_DEFAULT_OSVER_CHECK :=
  (provider_flags_asymmetry false _ _ rfl rfl).2.2.2.2.2.2

/-- No exit of the catalog fallback produces the InvalidPath variant. -/
theorem verify_catalog_signed_no_invalid_path (o : CatalogOracle) :
    (verify_catalog_signed o).1 ≠ .error Error.InvalidPath := by
  unfold verify_catalog_signed
  repeat' split
  all_goals simp

/-- No exit of verify() produces the InvalidPath variant. -/
theorem verify_no_invalid_path (o : VerifyOracle) :
    (Verifier.verify o).1 ≠ .error Error.InvalidPath := by
  unfold Verifier.verify
  split
  · simp
  · split
    · exact verify_catalog_signed_no_invalid_path o.catalog
    · simp

/-- No exit of the pid-based constructor produces the InvalidPath variant. -/
theorem for_pid_no_invalid_path (o : ProcessOracle) :
    Verifier.for_pid o ≠ .error Error.InvalidPath := by
  unfold Verifier.for_pid get_process_path
  split
  · rename_i e heq
    split at heq
    · have h2 := (Except.error.inj heq).symm
      subst h2
      simp
    · split at heq
      · have h2 := (Except.error.inj heq).symm
        subst h2
        simp
      · simp at heq
  · simp

/-- C6 counterexample: no oracle outcome at all makes the pid-based
constructor or verify() return InvalidPath — path encoding on this platform
is infallible (wide-character encoding plus lossy UTF-16 decoding), so the
claimed InvalidPath case is unreachable. -/
theorem invalid_path_unreachable :
    (¬ ∃ o : ProcessOracle, Verifier.for_pid o = .error Error.InvalidPath) ∧
    (¬ ∃ o : VerifyOracle, (Verifier.verify o).1 = .error Error.InvalidPath) :=
  ⟨fun ⟨o, h⟩ => for_pid_no_invalid_path o h,
   fun ⟨o, h⟩ => verify_no_invalid_path o h⟩

/-- C6 (amended): the pid-based constructor surfaces a process that cannot
be queried as OsError with the native code (for both the OpenProcess and
the image-name query failure), and neither it nor verify() ever returns
InvalidPath, the platform's path conversions being infallible. -/
theorem pid_errors_native_and_no_invalid_path :
    (∀ o : ProcessOracle, o.openHandle = 0 →
      Verifier.for_pid o = .error (.OsError (toInt32 o.openError))) ∧
    (∀ o : ProcessOracle, o.openHandle ≠ 0 → o.queryOk = false →
      Verifier.for_pid o = .error (.OsError (toInt32 o.queryError))) ∧
    (∀ o : ProcessOracle, Verifier.for_pid o ≠ .error Error.InvalidPath) ∧
    (∀ o : VerifyOracle, (Verifier.verify o).1 ≠ .error Error.InvalidPath) := by
  refine ⟨?_, ?_, for_pid_no_invalid_path, verify_no_invalid_path⟩
  · intro o h
    simp [Verifier.for_pid, get_process_path, h]
  · intro o h1 h2
    simp [Verifier.for_pid, get_process_path, h1, h2]

/-- Witness for C6 (amended): a failed OpenProcess with code 5 yields
OsError 5. -/
theorem pid_errors_native_and_no_invalid_path_witness :
    Verifier.for_pid processOpenFailOracle = .error (.OsError (toInt32 5)) :=
  pid_errors_native_and_no_invalid_path.1 processOpenFailOracle rfl

/-- C1 counterexample: on a fully successful catalog attempt (file handle
5, catalog-admin handle 7, catalog-info handle 9) the release events come
in the order file, catalog-info, catalog-admin — the file handle is
released first, not last, so the strict reverse-acquisition (LIFO) order
the claim states does not hold. -/
theorem cleanup_release_order_not_lifo :
    ((verify_catalog_signed catalogFoundOracle).2.filter Event.isCleanupRelease =
      [Event.closeHandle 5, Event.releaseCatalogContext 7 9, Event.releaseContext 7]) ∧
    ((verify_catalog_signed catalogFoundOracle).2.filter Event.isCleanupRelease ≠
      [Event.releaseCatalogContext 7 9, Event.releaseContext 7, Event.closeHandle 5]) := by
  constructor
  · decide
  · decide

/-- An internal verification call emits at most one event: the close of its
state data. -/
theorem verify_internal_events_shape (fi ci : Bool) (o : TrustOracle) :
    (verify_internal fi ci o).2 = [] ∨
      (verify_internal fi ci o).2 = [Event.wvtClose o.stateData] := by
  rcases o with ⟨wvt, sd, ⟨pd, sg, ct⟩, le⟩
  cases fi <;> cases ci <;> by_cases hw : wvt = 0 <;> cases pd <;> cases sg <;> cases ct <;>
    simp [verify_internal, buildWintrustData, Context.new, close_data, Context.dropEvents, hw]

/-- C1 (amended): within one catalog-fallback attempt every successfully
acquired native handle is released exactly once before the scope exits and
a handle still at its null sentinel is never released, but the release
order is file handle first, then catalog-info, then catalog-admin — not the
reverse-acquisition (LIFO) order.  The hypotheses record the API guarantees
that a successfully opened file handle and a successfully acquired
catalog-admin handle are nonzero. -/
theorem cleanup_releases_exactly_once_file_first (o : CatalogOracle)
    (h0 : o.hFile ≠ 0)
    (hA : o.acquireOk = true → o.hCatAdmin ≠ 0) :
    ((verify_catalog_signed o).2.filter Event.isCleanupRelease).Sublist
      [Event.closeHandle o.hFile,
        Event.releaseCatalogContext o.hCatAdmin o.hCatInfo,
        Event.releaseContext o.hCatAdmin] ∧
    (verify_catalog_signed o).2.count (Event.closeHandle o.hFile) =
      (verify_catalog_signed o).2.count (Event.acquireFile o.hFile) ∧
    (verify_catalog_signed o).2.count (Event.releaseContext o.hCatAdmin) =
      (verify_catalog_signed o).2.count (Event.acquireCatAdmin o.hCatAdmin) ∧
    (verify_catalog_signed o).2.count
        (Event.releaseCatalogContext o.hCatAdmin o.hCatInfo) =
      (verify_catalog_signed o).2.count (Event.acquireCatInfo o.hCatInfo) ∧
    Event.closeHandle 0 ∉ (verify_catalog_signed o).2 ∧
    Event.releaseContext 0 ∉ (verify_catalog_signed o).2 ∧
    ∀ a : Int, Event.releaseCatalogContext a 0 ∉ (verify_catalog_signed o).2 := by
  by_cases hf : o.hFile = INVALID_HANDLE_VALUE
  · have ht : (verify_catalog_signed o).2 = [] := by
      simp [verify_catalog_signed, hf]
    simp [ht]
  · cases hacq : o.acquireOk with
    | false =>
      have ht : (verify_catalog_signed o).2 =
          [Event.acquireFile o.hFile, Event.closeHandle o.hFile] := by
        simp [verify_catalog_signed, hf, hacq, CleanupContext.new,
          CleanupContext.dropEvents, h0]
      refine ⟨?_, ?_, ?_, ?_, ?_, ?_, ?_⟩ <;> simp only [ht]
      · simp [Event.isCleanupRelease]
      · simp [List.count_cons]
      · simp [List.count_cons]
      · simp [List.count_cons]
      · simp [Ne.symm h0]
      · simp
      · intro a; simp
    | true =>
      have hAd : o.hCatAdmin ≠ 0 := hA hacq
      cases hch : o.calcHashOk with
      | false =>
        have ht : (verify_catalog_signed o).2 =
            [Event.acquireFile o.hFile, Event.acquireCatAdmin o.hCatAdmin,
              Event.closeHandle o.hFile, Event.releaseContext o.hCatAdmin] := by
          simp [verify_catalog_signed, hf, hacq, hch, CleanupContext.new,
            CleanupContext.dropEvents, h0, hAd]
        refine ⟨?_, ?_, ?_, ?_, ?_, ?_, ?_⟩ <;> simp only [ht]
        · simp [Event.isCleanupRelease]
        · simp [List.count_cons]
        · simp [List.count_cons]
        · simp [List.count_cons]
        · simp [Ne.symm h0]
        · simp [Ne.symm hAd]
        · intro a; simp
      | true =>
        by_cases hci : o.hCatInfo = 0
        · have ht : (verify_catalog_signed o).2 =
              [Event.acquireFile o.hFile, Event.acquireCatAdmin o.hCatAdmin,
                Event.closeHandle o.hFile, Event.releaseContext o.hCatAdmin] := by
            simp [verify_catalog_signed, hf, hacq, hch, hci, CleanupContext.new,
              CleanupContext.dropEvents, h0, hAd]
          refine ⟨?_, ?_, ?_, ?_, ?_, ?_, ?_⟩ <;> simp only [ht]
          · simp [Event.isCleanupRelease]
          · simp [List.count_cons]
          · simp [List.count_cons]
          · simp [List.count_cons, hci]
          · simp [Ne.symm h0]
          · simp [Ne.symm hAd]
          · intro a; simp
        · cases hcio : o.catalogInfoOk with
          | false =>
            have ht : (verify_catalog_signed o).2 =
                [Event.acquireFile o.hFile, Event.acquireCatAdmin o.hCatAdmin,
                  Event.acquireCatInfo o.hCatInfo, Event.closeHandle o.hFile,
                  Event.releaseCatalogContext o.hCatAdmin o.hCatInfo,
                  Event.releaseContext o.hCatAdmin] := by
              simp [verify_catalog_signed, hf, hacq, hch, hci, hcio,
                CleanupContext.new, CleanupContext.dropEvents, h0, hAd]
            refine ⟨?_, ?_, ?_, ?_, ?_, ?_, ?_⟩ <;> simp only [ht]
            · simp [Event.isCleanupRelease]
            · simp [List.count_cons]
            · simp [List.count_cons]
            · simp [List.count_cons]
            · simp [Ne.symm h0]
            · simp [Ne.symm hAd]
            · intro a; simp [Ne.symm hci]
          | true =>
            rcases hvi : verify_internal false true o.innerVerify with ⟨r, evs⟩
            have hevs := verify_internal_events_shape false true o.innerVerify
            rw [hvi] at hevs
            simp only at hevs
            have ht : (verify_catalog_signed o).2 =
                [Event.acquireFile o.hFile, Event.acquireCatAdmin o.hCatAdmin,
                    Event.acquireCatInfo o.hCatInfo] ++ evs ++
                  [Event.closeHandle o.hFile,
                    Event.releaseCatalogContext o.hCatAdmin o.hCatInfo,
                    Event.releaseContext o.hCatAdmin] := by
              cases r <;>
                simp [verify_catalog_signed, hf, hacq, hch, hci, hcio, hvi,
                  CleanupContext.new, CleanupContext.dropEvents, h0, hAd]
            rcases hevs with hevs | hevs <;> subst hevs <;>
              refine ⟨?_, ?_, ?_, ?_, ?_, ?_, ?_⟩ <;> simp only [ht]
            · simp [Event.isCleanupRelease]
            · simp [List.count_cons]
            · simp [List.count_cons]
            · simp [List.count_cons]
            · simp [Ne.symm h0]
            · simp [Ne.symm hAd]
            · intro a; simp [Ne.symm hci]
            · simp [Event.isCleanupRelease]
            · simp [List.count_cons]
            · simp [List.count_cons]
            · simp [List.count_cons]
            · simp [Ne.symm h0]
            · simp [Ne.symm hAd]
            · intro a; simp [Ne.symm hci]

/-- Witness for C1 (amended): the fully successful attempt with handles 5,
7, 9 satisfies the exactly-once, null-skip and file-first ordering
properties. -/
theorem cleanup_releases_exactly_once_file_first_witness :
    ((verify_catalog_signed catalogFoundOracle).2.filter Event.isCleanupRelease).Sublist
      [Event.closeHandle 5, Event.releaseCatalogContext 7 9, Event.releaseContext 7] ∧
    (verify_catalog_signed catalogFoundOracle).2.count (Event.closeHandle 5) =
      (verify_catalog_signed catalogFoundOracle).2.count (Event.acquireFile 5) ∧
    (verify_catalog_signed catalogFoundOracle).2.count (Event.releaseContext 7) =
      (verify_catalog_signed catalogFoundOracle).2.count (Event.acquireCatAdmin 7) ∧
    (verify_catalog_signed catalogFoundOracle).2.count (Event.releaseCatalogContext 7 9) =
      (verify_catalog_signed catalogFoundOracle).2.count (Event.acquireCatInfo 9) ∧
    Event.closeHandle 0 ∉ (verify_catalog_signed catalogFoundOracle).2 ∧
    Event.releaseContext 0 ∉ (verify_catalog_signed catalogFoundOracle).2 ∧
    ∀ a : Int, Event.releaseCatalogContext a 0 ∉ (verify_catalog_signed catalogFoundOracle).2 :=
  cleanup_releases_exactly_once_file_first catalogFoundOracle (by decide) (fun _ => by decide)

end CodesignVerify
